import Mathlib

/-
  Verification development for the maple-teller statement-parsing engine.

  The Python source (src/mapleteller/domain/value_objects.py and
  src/mapleteller/domain/services/pdfprocessor.py) is shallowly embedded
  below: strings are lists of characters, Python regular expressions are
  values of a small backtracking regex calculus evaluated by a fuel-driven
  matcher that reproduces leftmost-greedy priority order, and every Python
  exception path (assert, ValueError, AttributeError, TypeError) becomes an
  explicit error value of type Err.
-/

set_option maxRecDepth 20000

abbrev LC := List Char

/-- Python whitespace class for str.strip and the regex class \s (ASCII range). -/
def isPySpace (c : Char) : Bool :=
  c = ' ' || c = '\t' || c = '\n' || c = '\r' || c = '\x0b' || c = '\x0c'

def isDigitC (c : Char) : Bool := '0' ≤ c && c ≤ '9'

def isUpperC (c : Char) : Bool := 'A' ≤ c && c ≤ 'Z'

def isLowerC (c : Char) : Bool := 'a' ≤ c && c ≤ 'z'

/-- The regex class \w restricted to ASCII (the statement texts are ASCII). -/
def isWordC (c : Char) : Bool := isDigitC c || isUpperC c || isLowerC c || c = '_'

/-- str.strip from the left. -/
def pyL (s : LC) : LC := s.dropWhile (fun c => isPySpace c)

/-- Python str.strip: drop whitespace on both ends. -/
def pyStrip (s : LC) : LC := ((pyL s).reverse.dropWhile (fun c => isPySpace c)).reverse

/-- Python substring test, `needle in hay`. -/
def startsWithL : LC → LC → Bool
  | [], _ => true
  | _ :: _, [] => false
  | a :: as, b :: bs => a = b && startsWithL as bs

def containsSub (needle : LC) : LC → Bool
  | [] => needle.isEmpty
  | c :: rest => startsWithL needle (c :: rest) || containsSub needle rest

/-- str.split on a newline character, keeping empty pieces (Python text.split of a newline). -/
def splitNL : LC → List LC
  | [] => [[]]
  | '\n' :: rest => [] :: splitNL rest
  | c :: rest =>
    match splitNL rest with
    | l :: ls => (c :: l) :: ls
    | [] => [[c]]

/-- str.replace of the two-character pattern CR by the empty string
    (non-overlapping, left to right). -/
def removeCR : LC → LC
  | 'C' :: 'R' :: rest => removeCR rest
  | c :: rest => c :: removeCR rest
  | [] => []

/-- One pass of str.replace collapsing a double space to a single space
    (non-overlapping, left to right). -/
def collapseStep : LC → LC
  | ' ' :: ' ' :: rest => ' ' :: collapseStep rest
  | c :: rest => c :: collapseStep rest
  | [] => []

def hasDoubleSpace (s : LC) : Bool := containsSub [' ', ' '] s

def sanitizeStringFuel : Nat → LC → LC
  | 0, s => s
  | fuel + 1, s => if hasDoubleSpace s then sanitizeStringFuel fuel (collapseStep s) else s

/-- sanitize_string from the source: while a double space is present, replace
    double spaces by single spaces.  Each pass shortens the string, so a fuel
    of the string length suffices for the loop to reach its fixed point. -/
def sanitize_string (s : LC) : LC := sanitizeStringFuel s.length s

/-- sanitize_amount from the source: drop spaces, commas, periods and dollar
    signs, then strip. -/
def sanitize_amount (s : LC) : LC :=
  pyStrip (s.filter (fun c => !(c = ' ' || c = ',' || c = '.' || c = '$')))

def digitVal (c : Char) : Nat := c.toNat - 48

/-- Digit tail of a Python integer literal: digits with single underscores
    allowed between digits (PEP 515). -/
def pyDigitsAux (acc : Nat) : LC → Option Nat
  | [] => some acc
  | '_' :: c :: rest =>
    if isDigitC c then pyDigitsAux (acc * 10 + digitVal c) rest else none
  | c :: rest =>
    if isDigitC c then pyDigitsAux (acc * 10 + digitVal c) rest else none

def pyDigits : LC → Option Nat
  | [] => none
  | c :: rest => if isDigitC c then pyDigitsAux (digitVal c) rest else none

/-- Python int(str): surrounding whitespace, an optional sign, then digits.
    Returns none where Python raises ValueError. -/
def pyInt (s : LC) : Option Int :=
  match pyStrip s with
  | '-' :: rest => (pyDigits rest).map (fun n => -(n : Int))
  | '+' :: rest => (pyDigits rest).map (fun n => (n : Int))
  | rest => (pyDigits rest).map (fun n => (n : Int))

/-- str.slice with both bounds, Python line[a:b] (clamping built in). -/
def pySlice (a b : Nat) (s : LC) : LC := (s.drop a).take (b - a)

def splitOnSpace : LC → List LC
  | [] => [[]]
  | ' ' :: rest => [] :: splitOnSpace rest
  | c :: rest =>
    match splitOnSpace rest with
    | l :: ls => (c :: l) :: ls
    | [] => [[c]]

def monthsStr : String := "jan feb mar apr may jun jul aug sep oct nov dec"

def MONTHS : List LC := splitOnSpace monthsStr.toList

def lowerL (s : LC) : LC := s.map Char.toLower

/-- MONTHS.index(x) + 1: the one-based month number, or none where Python
    raises ValueError. -/
def monthIndex1 (s : LC) : Option Nat := (List.findIdx? (fun m => m = s) MONTHS).map (· + 1)

/- ===== Regular expressions =====

  A small calculus covering the constructs used in the source patterns,
  evaluated by a backtracking matcher that returns every (suffix, captures)
  pair in Python priority order (alternation: left first; quantifiers:
  greedy).  Star bodies in the source always consume at least one character,
  and the matcher only repeats a star body when it consumed input, so a fuel
  proportional to pattern size times input length is exhaustive. -/

inductive RE where
  | eps
  | anyc
  | cls (p : Char → Bool)
  | lit (c : Char)
  | seq (a b : RE)
  | alt (a b : RE)
  | opt (a : RE)
  | star (a : RE)
  | group (n : Nat) (a : RE)

abbrev Caps := List (Nat × LC)

abbrev MRes := List (LC × Caps)

def reSize : RE → Nat
  | .eps => 1
  | .anyc => 1
  | .cls _ => 1
  | .lit _ => 1
  | .seq a b => reSize a + reSize b + 1
  | .alt a b => reSize a + reSize b + 1
  | .opt a => reSize a + 1
  | .star a => reSize a + 1
  | .group _ a => reSize a + 1

def reMatchF : Nat → RE → LC → Caps → MRes
  | 0, _, _, _ => []
  | _ + 1, .eps, s, caps => [(s, caps)]
  | _ + 1, .anyc, [], _ => []
  | _ + 1, .anyc, c :: s, caps => if c = '\n' then [] else [(s, caps)]
  | _ + 1, .cls _, [], _ => []
  | _ + 1, .cls p, c :: s, caps => if p c then [(s, caps)] else []
  | _ + 1, .lit _, [], _ => []
  | _ + 1, .lit a, c :: s, caps => if a = c then [(s, caps)] else []
  | fuel + 1, .seq a b, s, caps =>
    (reMatchF fuel a s caps).flatMap (fun r => reMatchF fuel b r.1 r.2)
  | fuel + 1, .alt a b, s, caps => reMatchF fuel a s caps ++ reMatchF fuel b s caps
  | fuel + 1, .opt a, s, caps => reMatchF fuel a s caps ++ [(s, caps)]
  | fuel + 1, .star a, s, caps =>
    ((reMatchF fuel a s caps).filter (fun r => r.1.length < s.length)).flatMap
      (fun r => reMatchF fuel (.star a) r.1 r.2 ++ [r]) ++ [(s, caps)]
  | fuel + 1, .group n a, s, caps =>
    (reMatchF fuel a s caps).map
      (fun r => (r.1, (n, s.take (s.length - r.1.length)) :: r.2))

def reFuel (re : RE) (s : LC) : Nat := (reSize re + 2) * (s.length + 2)

/-- All matches of the pattern anchored at the start of s, in Python
    backtracking priority order. -/
def reMatches (re : RE) (s : LC) : MRes := reMatchF (reFuel re s) re s []

/-- Python re.fullmatch: the first match, in priority order, consuming the
    whole string; returns its captures. -/
def reFullmatch (re : RE) (s : LC) : Option Caps :=
  (List.find? (fun r => r.1.isEmpty) (reMatches re s)).map (fun r => r.2)

/-- Python re.match: the first match anchored at the start; returns its
    captures. -/
def reMatchStart (re : RE) (s : LC) : Option Caps :=
  (reMatches re s).head?.map (fun r => r.2)

/-- Python re.search as a Boolean: a match starting at some offset. -/
def reSearch (re : RE) : LC → Bool
  | [] => !(reMatches re []).isEmpty
  | c :: rest => !(reMatches re (c :: rest)).isEmpty || reSearch re rest

/-- m.group(n) : none when the group did not participate in the match. -/
def getGroup (caps : Caps) (n : Nat) : Option LC :=
  (List.find? (fun p => p.1 = n) caps).map (fun p => p.2)

/-- m.group(n) where the group always participates; empty list as fallback. -/
def gD (caps : Caps) (n : Nat) : LC := (getGroup caps n).getD []

/-- Truthiness of m.group(n) in a Python condition. -/
def truthyGroup (g : Option LC) : Bool :=
  match g with
  | none => false
  | some s => !s.isEmpty

/- regex building helpers -/

def rlit (s : LC) : RE := s.foldr (fun c r => .seq (.lit c) r) .eps

def rstr (s : String) : RE := rlit s.toList

def rcat (l : List RE) : RE := l.foldr .seq .eps

def rplus (r : RE) : RE := .seq r (.star r)

/-- Bounded repetition: exactly n copies. -/
def repN : Nat → RE → RE
  | 0, _ => .eps
  | n + 1, r => .seq r (repN n r)

/-- Greedy up-to-n further copies (for counted repetition with a range). -/
def upToN : Nat → RE → RE
  | 0, _ => .eps
  | n + 1, r => .opt (.seq r (upToN n r))

/-- Counted repetition between lo and hi copies, greedy. -/
def repRange (lo hi : Nat) (r : RE) : RE := .seq (repN lo r) (upToN (hi - lo) r)

def wsp : RE := rplus (.cls isPySpace)

def wss : RE := .star (.cls isPySpace)

def rdigit : RE := .cls isDigitC

def rupper : RE := .cls isUpperC

def rlower : RE := .cls isLowerC

def dotstar : RE := .star .anyc

def rdotAny : RE := .anyc

/- ===== Data model ===== -/

/-- A calendar date as Python datetime.date stores it. -/
structure PyDate where
  year : Int
  month : Nat
  day : Nat
deriving DecidableEq, Repr

def isLeapYear (y : Int) : Bool := y % 4 = 0 && (!(y % 100 = 0) || y % 400 = 0)

def daysInMonth (y : Int) (m : Nat) : Nat :=
  if m = 2 then (if isLeapYear y then 29 else 28)
  else if m = 4 || m = 6 || m = 9 || m = 11 then 30
  else 31

/-- datetime.date(y, m, d): none where Python raises ValueError. -/
def mkPyDate (y : Int) (m d : Nat) : Option PyDate :=
  if 1 ≤ y && y ≤ 9999 && 1 ≤ m && m ≤ 12 && 1 ≤ d && d ≤ daysInMonth y m
  then some ⟨y, m, d⟩ else none

/-- The Transaction dataclass of value_objects.py.  Amounts are integer minor
    units; payee is the description text; note may be absent. -/
structure Transaction where
  tx_date : PyDate
  post_date : PyDate
  payee : LC
  credit : Option Int
  debit : Option Int
  balance : Option Int
  note : Option LC
deriving DecidableEq, Repr

/-- The body of Transaction.__post_init__ as a Boolean: exactly one of
    credit and debit is present, and each present value is non-negative. -/
def postInitOK (t : Transaction) : Bool :=
  (t.credit.isNone != t.debit.isNone)
    && (match t.credit with | some v => 0 ≤ v | none => true)
    && (match t.debit with | some v => 0 ≤ v | none => true)

/-- Constructing a Transaction runs __post_init__: none models the
    AssertionError raised on an invalid combination of fields. -/
def mkTransaction (td pd : PyDate) (payee : LC) (credit debit balance : Option Int)
    (note : Option LC) : Option Transaction :=
  let t : Transaction := ⟨td, pd, payee, credit, debit, balance, note⟩
  if postInitOK t then some t else none

/-- Every Python exception path of the engine, one constructor per distinct
    raise site / assertion message. -/
inductive Err where
  | unrecognizedDocument (firstPage : LC)
  | yearNotFound
  | yearNotSet
  | openingBalanceNotSet
  | closingBalanceNotSet
  | openingBalanceNotFound
  | closingBalanceNotFound
  | monthNotFound
  | intParseError
  | invalidDate
  | invalidTransactionAssert
  | invalidTransactionValue
  | noCreditOrDebit
  | creditMismatch
  | debitMismatch
  | balanceMismatch
  | attributeError
  | lastTransactionDateNotSet
  | noTransactionReference
  | noneTypeError
deriving DecidableEq, Repr

/-- Truthiness of an optional integer attribute in a Python condition:
    None and 0 are falsy. -/
def truthyIntOpt (v : Option Int) : Bool :=
  match v with
  | none => false
  | some n => !(n = 0)

/- ===== Shared scanning machinery (PDFProcessor.process_page) ===== -/

/-- The overridable pieces a parser variant supplies to the shared page
    scanner.  should_stop_processing_doc may read and write parser state
    (the BMO Mastercard variant records the closing balance there) and may
    raise, hence the Except. -/
structure Scanner (σ : Type) where
  shouldBegin : LC → Bool
  stopPage : LC → Bool
  stopDoc : σ → LC → Except Err (σ × Bool)
  prepare : σ → LC → Option LC → Option LC → Except Err (σ × Option Transaction)

/-- The first loop of process_page: discard lines up to and including the
    first line matching the header pattern; none when no header is found
    (the page yields no transactions, with a warning only). -/
def dropToTable (P : Scanner σ) : List LC → Option (List LC)
  | [] => none
  | l :: rest => if P.shouldBegin l then some rest else dropToTable P rest

/-- The second loop of process_page over the lines after the header.
    prev is the physically preceding line of the sliced list; the next line
    is passed only when it exists and does not satisfy the page-stop
    predicate. -/
def scanLines (P : Scanner σ) (s : σ) (prev : Option LC) :
    List LC → Except Err (σ × List Transaction)
  | [] => .ok (s, [])
  | l :: rest => do
    let (s1, stopD) ← P.stopDoc s l
    if stopD then
      .ok (s1, [])
    else if P.stopPage l then
      .ok (s1, [])
    else
      let next : Option LC :=
        match rest with
        | [] => none
        | n :: _ => if P.stopPage n then none else some n
      let (s2, otx) ← P.prepare s1 l prev next
      let (s3, txs) ← scanLines P s2 (some l) rest
      match otx with
      | some t => .ok (s3, t :: txs)
      | none => .ok (s3, txs)

/-- PDFProcessor.process_page on the text of one page. -/
def processPage (P : Scanner σ) (s : σ) (text : LC) : Except Err (σ × List Transaction) :=
  match dropToTable P (splitNL text) with
  | none => .ok (s, [])
  | some rest => scanLines P s none rest

/-- The page loop of PDFProcessor.process: scan every page in order,
    threading the parser state and concatenating the transactions. -/
def scanPages (P : Scanner σ) (s : σ) : List LC → Except Err (σ × List Transaction)
  | [] => .ok (s, [])
  | p :: ps => do
    let (s1, txs) ← processPage P s p
    let (s2, rest) ← scanPages P s1 ps
    .ok (s2, txs ++ rest)

/- ===== String constants used by substring tests ===== -/

def sBMO : String := "BMO"

def sSummary : String := "Summary of your account"

def sStatementDateOld : String := "Statement Date"

def sStatementDateNew : String := "Statement date"

def sRBC : String := "RBC"

def sMastercard : String := "Mastercard"

def sOpeningBalanceLc : String := "Opening balance"

def sClosingTotals : String := "Closing totals"

def sContinued : String := "continued"

def sPleaseReport : String := "Please report any errors"

def sContinuedNext : String := "(continued on next page)"

def sNoActivity : String := "No activity for this period"

def sOpeningBalanceUc : String := "Opening Balance"

def sCheckStatement : String := "Please check this Account Statement without delay"

def sClosingBalanceUc : String := "Closing Balance"

def sCRtxt : String := "CR"

/- ===== The regular expression patterns of pdfprocessor.py ===== -/

def clsDigitComma : Char → Bool := fun c => isDigitC c || c = ','

/-- Three letters, first upper then two lower. -/
def reMon : RE := rcat [rupper, rlower, rlower]

/-- One or two digits, greedy. -/
def rd12 : RE := repRange 1 2 rdigit

/-- Exactly four digits. -/
def rd4 : RE := repN 4 rdigit

/-- A dollar amount body with an unescaped period in the source pattern:
    one or more digits or commas, any character, then two digits. -/
def rAmtDotAny : RE := rcat [rplus (.cls clsDigitComma), .anyc, repN 2 rdigit]

/-- The same with the period escaped. -/
def rAmtDotLit : RE := rcat [rplus (.cls clsDigitComma), .lit '.', repN 2 rdigit]

/- BMO chequing (BMOChequingPDFProcessor) -/

def reBMOCheqYear : RE :=
  rcat [wsp, rstr (r"For"), wsp, rstr (r"the"), wsp, rstr (r"period"), wsp,
    rstr (r"ending"), wsp, rupper, rplus rlower, wsp, repN 2 rdigit, .lit ',', wsp,
    .group 1 rd4, dotstar]

def reBMOCheqHeader : RE :=
  rcat [wsp, rstr (r"Date"), wsp, rstr (r"Description"), wsp, dotstar]

def reBMOCheqTx : RE :=
  rcat [wsp, .group 1 reMon, wsp, .group 2 rd12, wsp, .group 3 (rplus .anyc)]

/- BMO Mastercard, new format (BMOMastercardPDFProcessor) -/

def reBMOMCOpen : RE :=
  rcat [wsp, rstr (r"Previous"), wsp, .opt (rcat [rstr (r"total"), wsp]),
    rstr (r"balance,"), wsp, reMon, .lit '.', wsp, rd12, .lit ',', wsp, rd4, wsp,
    .lit '$', .group 1 (rcat [rAmtDotAny, wsp, .opt (.group 2 (rstr (r"CR")))]),
    dotstar]

def reBMOMCYear : RE :=
  rcat [dotstar, wsp, rstr (r"Statement"), wsp, rstr (r"date"), wsp, rupper,
    rplus rlower, .lit '.', wsp, rd12, .lit ',', wsp, .group 1 rd4, dotstar]

def reBMOMCClose : RE :=
  rcat [wsp, rstr (r"Total"), wsp, rstr (r"balance"), wsp, .lit '$',
    .group 1 rAmtDotAny, wsp, .opt (.group 2 (rstr (r"CR"))), dotstar]

def reBMOMCHeader : RE :=
  rcat [wsp, rstr (r"DATE"), wsp, rstr (r"DATE"), wsp, rstr (r"DESCRIPTION"), wsp,
    rstr (r"AMOUNT"), dotstar]

def reBMOMCTx : RE :=
  rcat [wsp, .group 1 reMon, .lit '.', wsp, .group 2 rd12, wsp, .group 3 reMon,
    .lit '.', wsp, .group 4 rd12, wsp, .group 5 (rplus .anyc)]

def reBMOMCTotalCard : RE :=
  rcat [wsp, rstr (r"Total"), wsp, rstr (r"for"), wsp, rstr (r"card"), wsp,
    rstr (r"number"), wsp, rstr (r"XXXX"), wsp, rstr (r"XXXX"), wsp, rstr (r"XXXX"),
    wsp, rd4, wsp, .lit '$', .group 1 rAmtDotLit, wsp]

/- BMO Mastercard, old format (OldBMOMastercardPDFProcessor) -/

def reOldBMOMCYear : RE :=
  rcat [dotstar, wsp, rstr (r"Statement"), wsp, rstr (r"Date"), wsp, rupper,
    rplus rlower, .lit '.', wsp, rd12, .lit ',', wsp, .group 1 rd4, dotstar]

def reOldBMOMCOpen : RE :=
  rcat [dotstar, wsp, rstr (r"Previous"), wsp, rstr (r"Balance,"), wsp, reMon,
    .lit '.', wsp, rd12, .lit ',', wsp, rd4, wsp, .lit '$', .group 1 rAmtDotAny,
    dotstar]

def reOldBMOMCClose : RE :=
  rcat [dotstar, wsp, rstr (r"New"), wsp, rstr (r"Balance,"), wsp, reMon, .lit '.',
    wsp, rd12, .lit ',', wsp, rd4, wsp, .lit '$', .group 1 rAmtDotAny,
    .opt (.group 2 (rcat [wsp, rstr (r"CR")])), dotstar]

def reOldBMOMCHeader : RE :=
  rcat [wsp, rstr (r"DATE"), wsp, rstr (r"DATE"), wsp, rstr (r"DESCRIPTION"), wsp,
    rstr (r"REFERENCE"), .cls isPySpace, rstr (r"NO"), .lit '.', wsp,
    rstr (r"AMOUNT"), dotstar]

def reOldBMOMCTx : RE :=
  rcat [wsp, .group 1 reMon, .lit '.', wsp, .group 2 rd12, wsp, .group 3 reMon,
    .lit '.', wsp, .group 4 rd12, wsp, .group 5 (rplus .anyc)]

/- RBC chequing (RBCChequingPDFProcessor) -/

def reRBCRoyal : RE :=
  rcat [wss, rstr (r"Royal"), wsp, rstr (r"Bank"), wsp, rstr (r"of"), wsp,
    rstr (r"Canada"), wss]

def reRBCDeposits : RE := rcat [dotstar, rstr (r"Total"), wsp, rstr (r"deposits"), dotstar]

/-- The optionally signed dollar group of the RBC chequing balances. -/
def rSignedAmt : RE := rcat [.opt (rcat [.lit '-', wss]), .lit '$', rAmtDotAny]

def reRBCCheqOpen : RE :=
  rcat [wsp, rstr (r"Your"), wsp, rstr (r"opening"), wsp, rstr (r"balance"), wsp,
    .opt (rcat [rstr (r"on"), wsp, rupper, .star rlower, wsp, rplus rdigit,
      .lit ',', wsp, rd4, wsp]),
    .group 1 rSignedAmt, dotstar]

def reRBCCheqClose : RE :=
  rcat [wsp, rstr (r"Your"), wsp, rstr (r"closing"), wsp, rstr (r"balance"), wsp,
    rstr (r"on"), wsp, .group 1 reMon, .star rlower, wsp, .group 2 (rplus rdigit),
    .lit ',', wsp, .group 3 rd4, wsp, .lit '=', wsp, .group 4 rSignedAmt, dotstar]

def reRBCCheqHeader : RE :=
  rcat [wsp, rstr (r"Date"), wsp, rstr (r"Description"), wsp, rstr (r"Withdrawals"),
    wsp, dotstar]

def reRBCCheqTx : RE :=
  rcat [wsp, .group 1 rd12, wsp, .group 2 reMon, wsp, .group 3 (rplus .anyc)]

/- RBC Mastercard (RBCMastercardPDFProcessor) -/

def reRBCMCYear : RE :=
  rcat [dotstar, rstr (r"STATEMENT"), wsp, rstr (r"FROM"), wsp,
    .group 1 (rplus (.cls isWordC)), wsp, .group 2 (rplus rdigit),
    .opt (rcat [.lit ',', wsp, .group 3 rd4]), wsp, rstr (r"TO"), wsp,
    .group 4 (rplus (.cls isWordC)), wsp, .group 5 (rplus rdigit), .lit ',', wsp,
    .group 6 rd4, dotstar]

def reRBCMCOpen : RE :=
  rcat [dotstar, rstr (r"Previous"), wsp,
    .alt (rstr (r"Statement")) (rstr (r"Account")), wsp, rstr (r"Balance"), wsp,
    .group 1 (rcat [.opt (.lit '-'), .lit '$', rAmtDotLit]), dotstar]

def reRBCMCClose : RE :=
  rcat [dotstar, .alt (rstr (r"NEW")) (rstr (r"CREDIT")), wsp, rstr (r"BALANCE"),
    wsp, .group 1 (rcat [.opt (.lit '-'), .lit '$', rAmtDotLit]), dotstar]

def reRBCMCHeader : RE := rcat [dotstar, rstr (r"DATE"), wsp, rstr (r"DATE"), wsp, dotstar]

def reRBCMCTx : RE :=
  rcat [wsp, .group 1 (repN 3 rupper), wsp, .group 2 (repN 2 rdigit), wsp,
    .group 3 (repN 3 rupper), wsp, .group 4 (repN 2 rdigit), wsp,
    .group 5 (rplus .anyc)]

def reBalProtector : RE := rcat [rstr (r"BALANCEPROTECTOR"), wsp, rstr (r"PREMIUM")]

def reAutoPayment : RE :=
  rcat [rstr (r"AUTOMATIC"), wsp, rstr (r"PAYMENT"), wsp, .lit '-', wsp,
    rstr (r"THANK"), wsp, rstr (r"YOU")]

def reRefNo : RE := repRange 11 23 rdigit

def reRBCMCDocStop : RE := rcat [dotstar, rstr (r"NEW"), wsp, rstr (r"BALANCE"), dotstar]

/- ===== BMO chequing (BMOChequingPDFProcessor) ===== -/

/-- Parser state of the BMO chequing variant.  __init__ assigns None to a
    misspelled attribute (closing_cretit), so the closing_credit attribute
    itself starts unset (outer none models a missing attribute, read as an
    AttributeError); closing_debit is assigned None in __init__ and is
    therefore present from the start. -/
structure BMOCheqState where
  year : Option Int
  closing_debit : Option (Option Int)
  closing_credit : Option (Option Int)
deriving DecidableEq, Repr

def BMOCheqInit : BMOCheqState := ⟨none, some none, none⟩

/-- The first-page loop: the first line matching the period-ending pattern
    sets the year and breaks. -/
def bmoCheqFindYear : List LC → Except Err (Option Int)
  | [] => .ok none
  | l :: rest =>
    match reFullmatch reBMOCheqYear l with
    | some caps =>
      match pyInt (gD caps 1) with
      | some y => .ok (some y)
      | none => .error .intParseError
    | none => bmoCheqFindYear rest

def BMOCheqProcessFirstPage (text : LC) : Except Err BMOCheqState := do
  match ← bmoCheqFindYear (splitNL text) with
  | some y => .ok { BMOCheqInit with year := some y }
  | none => .error .yearNotFound

/-- A sliced amount column: sanitize, then int when non-empty and None when
    empty (non-digit leftovers raise ValueError in int). -/
def amountOpt (s : LC) : Except Err (Option Int) :=
  let a := sanitize_amount s
  if a.isEmpty then .ok none
  else
    match pyInt a with
    | some v => .ok (some v)
    | none => .error .intParseError

def BMOCheqPrepare (s : BMOCheqState) (line : LC) (_prev next : Option LC) :
    Except Err (BMOCheqState × Option Transaction) :=
  let desc := line.take 68
  let creditS := pySlice 70 87 line
  let debitS := pySlice 90 107 line
  let balanceS := pySlice 109 125 line
  match reFullmatch reBMOCheqTx desc with
  | none => .ok (s, none)
  | some caps =>
    let note0 := pyStrip (gD caps 3)
    if containsSub sOpeningBalanceLc.toList note0 then .ok (s, none)
    else
      let note1 :=
        match next with
        | some nl =>
          let nd := nl.take 68
          let nc := pyStrip (pySlice 70 87 nl)
          let ndb := pyStrip (pySlice 90 107 nl)
          let nb := pyStrip (pySlice 109 125 nl)
          if (reFullmatch reBMOCheqTx nd).isNone && !(pyStrip nd).isEmpty
              && nc.isEmpty && ndb.isEmpty && nb.isEmpty
          then note0 ++ ' ' :: pyStrip nd
          else note0
        | none => note0
      do
      let credit ← amountOpt creditS
      let debit ← amountOpt debitS
      let balance ← amountOpt balanceS
      if containsSub sClosingTotals.toList note1 then
        .ok ({ s with closing_debit := some debit, closing_credit := some credit }, none)
      else
        match monthIndex1 (lowerL (gD caps 1)) with
        | none => .error .monthNotFound
        | some month =>
          match s.year with
          | none => .error .yearNotSet
          | some y =>
            if y = 0 then .error .yearNotSet
            else
              match pyInt (gD caps 2) with
              | none => .error .intParseError
              | some day =>
                match mkPyDate y month day.toNat with
                | none => .error .invalidDate
                | some dt =>
                  match mkTransaction dt dt note1 credit debit balance (some note1) with
                  | some t => .ok (s, some t)
                  | none => .error .invalidTransactionAssert

def BMOCheqScanner : Scanner BMOCheqState where
  shouldBegin l := (reFullmatch reBMOCheqHeader l).isSome
  stopPage l := pyStrip l == sContinued.toList
  stopDoc s l := .ok (s, containsSub sPleaseReport.toList l)
  prepare := BMOCheqPrepare

/-- The summation loop of BMOChequingPDFProcessor.post_process_transactions:
    credits and debits are totalled separately; a transaction with neither
    fails the assert False branch. -/
def sumLoopBMOCheq : List Transaction → Int → Int → Except Err (Int × Int)
  | [], tc, td => .ok (tc, td)
  | t :: rest, tc, td =>
    match t.credit with
    | some c => sumLoopBMOCheq rest (tc + c) td
    | none =>
      match t.debit with
      | some d => sumLoopBMOCheq rest tc (td + d)
      | none => .error .noCreditOrDebit

def BMOCheqPostProcess (s : BMOCheqState) (txs : List Transaction) :
    Except Err (List Transaction) := do
  let (tc, td) ← sumLoopBMOCheq txs 0 0
  match s.closing_credit with
  | none => .error .attributeError
  | some cc =>
    if cc = some tc then
      match s.closing_debit with
      | none => .error .attributeError
      | some cd =>
        if cd = some td then .ok txs else .error .debitMismatch
    else .error .creditMismatch

def BMOCheqProcessDoc (firstPage : LC) (pages : List LC) : Except Err (List Transaction) := do
  let s0 ← BMOCheqProcessFirstPage firstPage
  let (s1, txs) ← scanPages BMOCheqScanner s0 pages
  BMOCheqPostProcess s1 txs

/- ===== BMO Mastercard, new format (BMOMastercardPDFProcessor) ===== -/

structure BMOMCState where
  year : Option Int
  opening_balance : Option Int
  closing_balance : Option Int
deriving DecidableEq, Repr

def BMOMCInit : BMOMCState := ⟨none, none, none⟩

/-- One line of BMOMastercardPDFProcessor.process_first_page: the three
    guarded pattern blocks, in source order (opening balance, year, closing
    balance); each guard is Python truthiness, so a zero value keeps the
    scan open. -/
def BMOMCFirstPageLine (s0 : BMOMCState) (l : LC) : Except Err BMOMCState := do
  let s1 ←
    if !truthyIntOpt s0.opening_balance then
      match reFullmatch reBMOMCOpen l with
      | some caps =>
        let ob := sanitize_amount (gD caps 1)
        if truthyGroup (getGroup caps 2) then
          match pyInt (removeCR ob) with
          | some v => pure { s0 with opening_balance := some (-v) }
          | none => .error .intParseError
        else
          match pyInt ob with
          | some v => pure { s0 with opening_balance := some v }
          | none => .error .intParseError
      | none => pure s0
    else pure s0
  let s2 ←
    if !truthyIntOpt s1.year then
      match reFullmatch reBMOMCYear l with
      | some caps =>
        match pyInt (gD caps 1) with
        | some y => pure { s1 with year := some y }
        | none => .error .intParseError
      | none => pure s1
    else pure s1
  if !truthyIntOpt s2.closing_balance then
    match reFullmatch reBMOMCClose l with
    | some caps =>
      let cb := sanitize_amount (gD caps 1)
      if truthyGroup (getGroup caps 2) then
        match pyInt (removeCR cb) with
        | some v => pure { s2 with closing_balance := some (-v) }
        | none => .error .intParseError
      else
        match pyInt cb with
        | some v => pure { s2 with closing_balance := some v }
        | none => .error .intParseError
    | none => pure s2
  else pure s2

def bmoMCFirstPageLoop : BMOMCState → List LC → Except Err BMOMCState
  | s, [] => .ok s
  | s, l :: rest => do bmoMCFirstPageLoop (← BMOMCFirstPageLine s l) rest

/-- process_first_page of the new-format BMO Mastercard variant records what
    it finds and ends without any assertion: a missing item leaves the field
    at none and the method returns normally. -/
def BMOMCProcessFirstPage (text : LC) : Except Err BMOMCState :=
  bmoMCFirstPageLoop BMOMCInit (splitNL text)

def BMOMCPrepare (s : BMOMCState) (line : LC) (_prev next : Option LC) :
    Except Err (BMOMCState × Option Transaction) :=
  let desc := line.take 78
  let amountS := pySlice 78 95 line
  match reFullmatch reBMOMCTx desc with
  | none => .ok (s, none)
  | some caps =>
    let note0 := pyStrip (gD caps 5)
    let note1 :=
      match next with
      | some nl =>
        let nd := nl.take 78
        let na := pyStrip (pySlice 78 95 nl)
        if (reFullmatch reBMOMCTx nd).isNone && !(pyStrip nd).isEmpty && na.isEmpty
        then note0 ++ ' ' :: pyStrip nd
        else note0
      | none => note0
    do
    let amt := sanitize_amount amountS
    let (credit, debit) ←
      if containsSub sCRtxt.toList amt then
        match pyInt (removeCR amt) with
        | some v => pure ((none : Option Int), some v)
        | none => .error .intParseError
      else
        match pyInt amt with
        | some v => pure (some v, (none : Option Int))
        | none => .error .intParseError
    let note2 := sanitize_string note1
    match monthIndex1 (lowerL (gD caps 1)), monthIndex1 (lowerL (gD caps 3)) with
    | some txm, some pm =>
      match s.year with
      | none => .error .yearNotSet
      | some y =>
        if y = 0 then .error .yearNotSet
        else
          match pyInt (gD caps 2), pyInt (gD caps 4) with
          | some txd, some postd =>
            match mkPyDate y txm txd.toNat, mkPyDate y pm postd.toNat with
            | some d1, some d2 =>
              match mkTransaction d1 d2 note2 credit debit none (some note2) with
              | some t => .ok (s, some t)
              | none => .error .invalidTransactionAssert
            | _, _ => .error .invalidDate
          | _, _ => .error .intParseError
    | _, _ => .error .monthNotFound

/-- should_stop_processing_doc of the BMO Mastercard variants: only fires
    while the closing balance is still falsy, and stores the total-for-card
    amount as the closing balance when it fires. -/
def BMOMCStopDoc (s : BMOMCState) (l : LC) : Except Err (BMOMCState × Bool) :=
  if !truthyIntOpt s.closing_balance then
    match reFullmatch reBMOMCTotalCard l with
    | none => .ok (s, false)
    | some caps =>
      match pyInt (sanitize_amount (gD caps 1)) with
      | some v => .ok ({ s with closing_balance := some v }, true)
      | none => .error .intParseError
  else .ok (s, false)

def BMOMCScanner : Scanner BMOMCState where
  shouldBegin l := (reFullmatch reBMOMCHeader l).isSome
  stopPage l := containsSub sContinuedNext.toList l
  stopDoc := BMOMCStopDoc
  prepare := BMOMCPrepare

/-- The running total of the card-style post-processing loop: credits are
    added, debits subtracted; a transaction with neither fails the
    assert False branch. -/
def sumLoopMC : List Transaction → Int → Except Err Int
  | [], acc => .ok acc
  | t :: rest, acc =>
    match t.credit with
    | some c => sumLoopMC rest (acc + c)
    | none =>
      match t.debit with
      | some d => sumLoopMC rest (acc - d)
      | none => .error .noCreditOrDebit

def BMOMCPostProcess (s : BMOMCState) (txs : List Transaction) :
    Except Err (List Transaction) :=
  match s.opening_balance with
  | none => .error .openingBalanceNotFound
  | some ob =>
    match s.closing_balance with
    | none => .error .closingBalanceNotFound
    | some cb => do
      let total ← sumLoopMC txs 0
      if total + ob = cb then .ok txs else .error .balanceMismatch

def BMOMCProcessDoc (firstPage : LC) (pages : List LC) : Except Err (List Transaction) := do
  let s0 ← BMOMCProcessFirstPage firstPage
  let (s1, txs) ← scanPages BMOMCScanner s0 pages
  BMOMCPostProcess s1 txs

/- ===== BMO Mastercard, old format (OldBMOMastercardPDFProcessor) =====

  Subclasses the new-format variant: same state shape, same page-stop and
  document-stop predicates and the same post-processing; its own first-page
  patterns (with final assertions), header, slices and transaction logic. -/

def OldBMOMCFirstPageLine (s0 : BMOMCState) (l : LC) : Except Err BMOMCState := do
  let s1 ←
    if !truthyIntOpt s0.year then
      match reFullmatch reOldBMOMCYear l with
      | some caps =>
        match pyInt (gD caps 1) with
        | some y => pure { s0 with year := some y }
        | none => .error .intParseError
      | none => pure s0
    else pure s0
  let s2 ←
    if !truthyIntOpt s1.opening_balance then
      match reFullmatch reOldBMOMCOpen l with
      | some caps =>
        match pyInt (sanitize_amount (gD caps 1)) with
        | some v => pure { s1 with opening_balance := some v }
        | none => .error .intParseError
      | none => pure s1
    else pure s1
  if !truthyIntOpt s2.closing_balance then
    match reFullmatch reOldBMOMCClose l with
    | some caps =>
      let cb := sanitize_amount (gD caps 1)
      let isCR :=
        match getGroup caps 2 with
        | some g => pyStrip g == sCRtxt.toList
        | none => false
      if isCR then
        match pyInt (removeCR cb) with
        | some v => pure { s2 with closing_balance := some (-v) }
        | none => .error .intParseError
      else
        match pyInt cb with
        | some v => pure { s2 with closing_balance := some v }
        | none => .error .intParseError
    | none => pure s2
  else pure s2

def oldBMOMCFirstPageLoop : BMOMCState → List LC → Except Err BMOMCState
  | s, [] => .ok s
  | s, l :: rest => do oldBMOMCFirstPageLoop (← OldBMOMCFirstPageLine s l) rest

/-- process_first_page of the old-format variant ends with three assertions:
    truthy year, opening balance not None, closing balance not None. -/
def OldBMOMCProcessFirstPage (text : LC) : Except Err BMOMCState := do
  let s ← oldBMOMCFirstPageLoop BMOMCInit (splitNL text)
  if !truthyIntOpt s.year then .error .yearNotSet
  else if s.opening_balance.isNone then .error .openingBalanceNotSet
  else if s.closing_balance.isNone then .error .closingBalanceNotSet
  else .ok s

def OldBMOMCPrepare (s : BMOMCState) (line : LC) (_prev _next : Option LC) :
    Except Err (BMOMCState × Option Transaction) :=
  let desc := line.take 85
  let reference := pySlice 88 115 line
  let amountS := pySlice 118 135 line
  match reFullmatch reOldBMOMCTx desc with
  | none => .ok (s, none)
  | some caps =>
    let note0 := pyStrip (gD caps 5)
    do
    let amt := sanitize_amount amountS
    let (credit, debit) ←
      if containsSub sCRtxt.toList amt then
        match pyInt (removeCR amt) with
        | some v => pure ((none : Option Int), some v)
        | none => .error .intParseError
      else
        match pyInt amt with
        | some v => pure (some v, (none : Option Int))
        | none => .error .intParseError
    let note2 := sanitize_string note0
    match monthIndex1 (lowerL (gD caps 1)), monthIndex1 (lowerL (gD caps 3)) with
    | some txm, some pm =>
      match s.year with
      | none => .error .yearNotSet
      | some y =>
        if y = 0 then .error .yearNotSet
        else
          match pyInt (gD caps 2), pyInt (gD caps 4) with
          | some txd, some postd =>
            match mkPyDate y txm txd.toNat, mkPyDate y pm postd.toNat with
            | some d1, some d2 =>
              match mkTransaction d1 d2 note2 credit debit none
                  (some (note2 ++ ' ' :: pyStrip reference)) with
              | some t => .ok (s, some t)
              | none => .error .invalidTransactionAssert
            | _, _ => .error .invalidDate
          | _, _ => .error .intParseError
    | _, _ => .error .monthNotFound

def OldBMOMCScanner : Scanner BMOMCState where
  shouldBegin l := (reFullmatch reOldBMOMCHeader l).isSome
  stopPage l := containsSub sContinuedNext.toList l
  stopDoc := BMOMCStopDoc
  prepare := OldBMOMCPrepare

def OldBMOMCProcessDoc (firstPage : LC) (pages : List LC) : Except Err (List Transaction) := do
  let s0 ← OldBMOMCProcessFirstPage firstPage
  let (s1, txs) ← scanPages OldBMOMCScanner s0 pages
  BMOMCPostProcess s1 txs

/- ===== RBC chequing (RBCChequingPDFProcessor) ===== -/

structure RBCCheqState where
  year : Option Int
  opening_balance : Option Int
  closing_balance : Option Int
  last_transaction_date : Option PyDate
  pending_tx : Option Transaction
deriving DecidableEq, Repr

def RBCCheqInit : RBCCheqState := ⟨none, none, none, none, none⟩

def RBCCheqFirstPageLine (s0 : RBCCheqState) (l : LC) : Except Err RBCCheqState := do
  let s1 ←
    if !truthyIntOpt s0.opening_balance then
      match reFullmatch reRBCCheqOpen l with
      | some caps =>
        match pyInt (sanitize_amount (gD caps 1)) with
        | some v => pure { s0 with opening_balance := some v }
        | none => .error .intParseError
      | none => pure s0
    else pure s0
  if !truthyIntOpt s1.closing_balance then
    match reFullmatch reRBCCheqClose l with
    | some caps =>
      match pyInt (sanitize_amount (gD caps 4)) with
      | none => .error .intParseError
      | some cb =>
        match pyInt (gD caps 3) with
        | none => .error .intParseError
        | some y => pure { s1 with closing_balance := some cb, year := some y }
    | none => pure s1
  else pure s1

def rbcCheqFirstPageLoop : RBCCheqState → List LC → Except Err RBCCheqState
  | s, [] => .ok s
  | s, l :: rest => do rbcCheqFirstPageLoop (← RBCCheqFirstPageLine s l) rest

def RBCCheqProcessFirstPage (text : LC) : Except Err RBCCheqState := do
  let s ← rbcCheqFirstPageLoop RBCCheqInit (splitNL text)
  if !truthyIntOpt s.year then .error .yearNotSet
  else if s.opening_balance.isNone then .error .openingBalanceNotSet
  else if s.closing_balance.isNone then .error .closingBalanceNotSet
  else .ok s

/-- The tail of RBCChequingPDFProcessor.prepare_new_transaction once the
    date and description of the line are known: blank amount columns feed
    the pending buffer, a present amount flushes or creates a transaction. -/
def RBCCheqFinish (s : RBCCheqState) (dt : PyDate) (note : LC) (creditS debitS : LC) :
    Except Err (RBCCheqState × Option Transaction) :=
  if (pyStrip creditS).isEmpty && (pyStrip debitS).isEmpty then
    match s.pending_tx with
    | some p =>
      match p.note with
      | none => .error .noneTypeError
      | some pn =>
        .ok ({ s with
                pending_tx := some { p with payee := p.payee ++ ' ' :: note,
                                            note := some (pn ++ ' ' :: note) },
                last_transaction_date := some dt }, none)
    | none =>
      match mkTransaction dt dt note (some 0) none none (some note) with
      | some p =>
        .ok ({ s with pending_tx := some p, last_transaction_date := some dt }, none)
      | none => .error .invalidTransactionAssert
  else do
    let (credit, debit) ←
      if !(pyStrip creditS).isEmpty then
        match pyInt (sanitize_amount creditS) with
        | some v => pure (some v, (none : Option Int))
        | none => .error .intParseError
      else if !(pyStrip debitS).isEmpty then
        match pyInt (sanitize_amount debitS) with
        | some v => pure ((none : Option Int), some v)
        | none => .error .intParseError
      else .error .invalidTransactionValue
    let (s1, r) ←
      match s.pending_tx with
      | some p =>
        match p.note with
        | none => .error .noneTypeError
        | some pn =>
          let p1 : Transaction :=
            { p with payee := p.payee ++ ' ' :: note,
                     note := some (pn ++ ' ' :: note),
                     credit := credit, debit := debit }
          if postInitOK p1 then pure ({ s with pending_tx := none }, p1)
          else .error .invalidTransactionAssert
      | none =>
        match mkTransaction dt dt note credit debit none (some note) with
        | some t => pure (s, t)
        | none => .error .invalidTransactionAssert
    match r.note with
    | none => .error .noneTypeError
    | some rn =>
      .ok ({ s1 with last_transaction_date := some dt },
           some { r with payee := sanitize_string r.payee,
                         note := some (sanitize_string rn) })

def RBCCheqPrepare (s : RBCCheqState) (line : LC) (_prev _next : Option LC) :
    Except Err (RBCCheqState × Option Transaction) :=
  if containsSub sNoActivity.toList line || containsSub sOpeningBalanceUc.toList line then
    .ok (s, none)
  else
    let desc := line.take 60
    let creditS := pySlice 68 85 line
    let debitS := pySlice 88 110 line
    match reFullmatch reRBCCheqTx desc with
    | some caps =>
      match monthIndex1 (lowerL (gD caps 2)) with
      | none => .error .monthNotFound
      | some month =>
        match s.year with
        | none => .error .yearNotSet
        | some y =>
          if y = 0 then .error .yearNotSet
          else
            let note := pyStrip (gD caps 3)
            match pyInt (gD caps 1) with
            | none => .error .intParseError
            | some day =>
              match mkPyDate y month day.toNat with
              | none => .error .invalidDate
              | some dt => RBCCheqFinish s dt note creditS debitS
    | none =>
      let note := pyStrip desc
      match s.last_transaction_date with
      | none => .error .lastTransactionDateNotSet
      | some dt => RBCCheqFinish s dt note creditS debitS

def RBCCheqScanner : Scanner RBCCheqState where
  shouldBegin l := (reFullmatch reRBCCheqHeader l).isSome
  stopPage l :=
    containsSub sCheckStatement.toList l || containsSub sClosingBalanceUc.toList l
      || containsSub sNoActivity.toList l
  stopDoc s _ := .ok (s, false)
  prepare := RBCCheqPrepare

/-- The running total of the RBC chequing post-processing loop: credits are
    subtracted, debits added (the opposite sign convention of the card
    variants). -/
def sumLoopRBCCheq : List Transaction → Int → Except Err Int
  | [], acc => .ok acc
  | t :: rest, acc =>
    match t.credit with
    | some c => sumLoopRBCCheq rest (acc - c)
    | none =>
      match t.debit with
      | some d => sumLoopRBCCheq rest (acc + d)
      | none => .error .noCreditOrDebit

def RBCCheqPostProcess (s : RBCCheqState) (txs : List Transaction) :
    Except Err (List Transaction) :=
  match s.opening_balance with
  | none => .error .openingBalanceNotFound
  | some ob =>
    match s.closing_balance with
    | none => .error .closingBalanceNotFound
    | some cb => do
      let total ← sumLoopRBCCheq txs 0
      if total + ob = cb then .ok txs else .error .balanceMismatch

def RBCCheqProcessDoc (firstPage : LC) (pages : List LC) : Except Err (List Transaction) := do
  let s0 ← RBCCheqProcessFirstPage firstPage
  let (s1, txs) ← scanPages RBCCheqScanner s0 pages
  RBCCheqPostProcess s1 txs

/- ===== RBC Mastercard (RBCMastercardPDFProcessor) ===== -/

structure RBCMCState where
  year : Option Int
  opening_balance : Option Int
  closing_balance : Option Int
deriving DecidableEq, Repr

def RBCMCInit : RBCMCState := ⟨none, none, none⟩

def RBCMCFirstPageLine (s0 : RBCMCState) (l : LC) : Except Err RBCMCState := do
  let s1 ←
    if !truthyIntOpt s0.year then
      match reMatchStart reRBCMCYear l with
      | some caps =>
        match pyInt (gD caps 6) with
        | some y => pure { s0 with year := some y }
        | none => .error .intParseError
      | none => pure s0
    else pure s0
  let s2 ←
    if !truthyIntOpt s1.opening_balance then
      match reMatchStart reRBCMCOpen l with
      | some caps =>
        match pyInt (sanitize_amount (gD caps 1)) with
        | some v => pure { s1 with opening_balance := some v }
        | none => .error .intParseError
      | none => pure s1
    else pure s1
  if !truthyIntOpt s2.closing_balance then
    match reMatchStart reRBCMCClose l with
    | some caps =>
      match pyInt (sanitize_amount (gD caps 1)) with
      | some v => pure { s2 with closing_balance := some v }
      | none => .error .intParseError
    | none => pure s2
  else pure s2

def rbcMCFirstPageLoop : RBCMCState → List LC → Except Err RBCMCState
  | s, [] => .ok s
  | s, l :: rest => do rbcMCFirstPageLoop (← RBCMCFirstPageLine s l) rest

def RBCMCProcessFirstPage (text : LC) : Except Err RBCMCState := do
  let s ← rbcMCFirstPageLoop RBCMCInit (splitNL text)
  if !truthyIntOpt s.year then .error .yearNotSet
  else if s.opening_balance.isNone then .error .openingBalanceNotSet
  else if s.closing_balance.isNone then .error .closingBalanceNotSet
  else .ok s

def RBCMCPrepare (s : RBCMCState) (line : LC) (_prev next : Option LC) :
    Except Err (RBCMCState × Option Transaction) :=
  match s.year with
  | none => .error .yearNotSet
  | some y =>
    if y = 0 then .error .yearNotSet
    else
      let desc := line.take 74
      let amountS := pySlice 76 93 line
      match reMatchStart reRBCMCTx desc with
      | none => .ok (s, none)
      | some caps => do
        let tx_date ←
          match monthIndex1 (lowerL (gD caps 1)) with
          | none => .error .monthNotFound
          | some m =>
            match pyInt (gD caps 2) with
            | none => .error .intParseError
            | some d =>
              match mkPyDate y m d.toNat with
              | none => .error .invalidDate
              | some dt => pure dt
        let post_date ←
          match monthIndex1 (lowerL (gD caps 3)) with
          | none => .error .monthNotFound
          | some m =>
            match pyInt (gD caps 4) with
            | none => .error .intParseError
            | some d =>
              match mkPyDate y m d.toNat with
              | none => .error .invalidDate
              | some dt => pure dt
        let payee0 := pyStrip (gD caps 5)
        let note ←
          if (reMatchStart reBalProtector payee0).isSome
              || (reMatchStart reAutoPayment payee0).isSome then
            pure (none : Option LC)
          else
            match next with
            | none => .error .noTransactionReference
            | some nl =>
              let rr := pyStrip (nl.take 76)
              if (reMatchStart reRefNo rr).isSome then pure (some rr)
              else .error .noTransactionReference
        let amt ←
          match pyInt (sanitize_amount amountS) with
          | some v => pure v
          | none => .error .intParseError
        let (credit, debit) :=
          if 0 < amt then (some amt, (none : Option Int))
          else ((none : Option Int), some (-amt))
        match mkTransaction tx_date post_date (sanitize_string payee0) credit debit none note with
        | some t => .ok (s, some t)
        | none => .error .invalidTransactionAssert

def RBCMCScanner : Scanner RBCMCState where
  shouldBegin l := (reMatchStart reRBCMCHeader l).isSome
  stopPage _ := false
  stopDoc s l := .ok (s, (reMatchStart reRBCMCDocStop l).isSome)
  prepare := RBCMCPrepare

/-- The running balance of RBCMastercardPDFProcessor.post_process:
    starts from the opening balance, adds credits, subtracts debits; a
    transaction with neither field is skipped (no assert-False branch in
    this variant). -/
def sumLoopRBCMC : List Transaction → Int → Int
  | [], acc => acc
  | t :: rest, acc =>
    match t.credit with
    | some c => sumLoopRBCMC rest (acc + c)
    | none =>
      match t.debit with
      | some d => sumLoopRBCMC rest (acc - d)
      | none => sumLoopRBCMC rest acc

def RBCMCPostProcess (s : RBCMCState) (txs : List Transaction) :
    Except Err (List Transaction) :=
  match s.opening_balance with
  | none => .error .openingBalanceNotSet
  | some ob =>
    match s.closing_balance with
    | none => .error .closingBalanceNotSet
    | some cb =>
      if sumLoopRBCMC txs ob = cb then .ok txs else .error .balanceMismatch

def RBCMCProcessDoc (firstPage : LC) (pages : List LC) : Except Err (List Transaction) := do
  let s0 ← RBCMCProcessFirstPage firstPage
  let (s1, txs) ← scanPages RBCMCScanner s0 pages
  RBCMCPostProcess s1 txs

/- ===== Document-type detection and the pipeline ===== -/

inductive Variant where
  | oldBMOMC
  | bmoMC
  | bmoCheq
  | rbcCheq
  | rbcMC
deriving DecidableEq, Repr

/-- OldBMOMastercardPDFProcessor.try_create_processor. -/
def oldBMOMCMatches (fp : LC) : Bool :=
  if containsSub sBMO.toList fp then containsSub sStatementDateOld.toList fp
  else false

/-- BMOMastercardPDFProcessor.try_create_processor. -/
def bmoMCMatches (fp : LC) : Bool :=
  if containsSub sBMO.toList fp then containsSub sStatementDateNew.toList fp
  else false

/-- BMOChequingPDFProcessor.try_create_processor: the if branch requires the
    summary phrase when BMO is present, the elif branch accepts the summary
    phrase without BMO. -/
def bmoCheqMatches (fp : LC) : Bool :=
  if containsSub sBMO.toList fp then containsSub sSummary.toList fp
  else containsSub sSummary.toList fp

/-- RBCChequingPDFProcessor.try_create_processor (two regex searches). -/
def rbcCheqMatches (fp : LC) : Bool :=
  reSearch reRBCRoyal fp && reSearch reRBCDeposits fp

/-- RBCMastercardPDFProcessor.try_create_processor. -/
def rbcMCMatches (fp : LC) : Bool :=
  containsSub sRBC.toList fp && containsSub sMastercard.toList fp

def variantMatches : Variant → LC → Bool
  | .oldBMOMC, fp => oldBMOMCMatches fp
  | .bmoMC, fp => bmoMCMatches fp
  | .bmoCheq, fp => bmoCheqMatches fp
  | .rbcCheq, fp => rbcCheqMatches fp
  | .rbcMC, fp => rbcMCMatches fp

/-- The fixed priority order of the detection loop in PDFProcessor.process. -/
def variantOrder : List Variant := [.oldBMOMC, .bmoMC, .bmoCheq, .rbcCheq, .rbcMC]

/-- The detection loop: first matching variant in the fixed order. -/
def detectProcessor (fp : LC) : Option Variant :=
  if oldBMOMCMatches fp then some .oldBMOMC
  else if bmoMCMatches fp then some .bmoMC
  else if bmoCheqMatches fp then some .bmoCheq
  else if rbcCheqMatches fp then some .rbcCheq
  else if rbcMCMatches fp then some .rbcMC
  else none

/-- PDFProcessor.process: detect the variant from the first-page text (the
    unrecognized error surfaces that text), run its first-page metadata
    scan, scan every page, and post-process.  The page texts are the
    variant-specific extractions of each page, supplied as input (text
    extraction is the out-of-scope collaborator). -/
def processPDF (firstPage : LC) (pages : List LC) : Except Err (List Transaction) :=
  match detectProcessor firstPage with
  | none => .error (.unrecognizedDocument firstPage)
  | some .oldBMOMC => OldBMOMCProcessDoc firstPage pages
  | some .bmoMC => BMOMCProcessDoc firstPage pages
  | some .bmoCheq => BMOCheqProcessDoc firstPage pages
  | some .rbcCheq => RBCCheqProcessDoc firstPage pages
  | some .rbcMC => RBCMCProcessDoc firstPage pages

/- ===== Concrete documents and inputs used in the theorems ===== -/

/-- Sum of the present credit values of a transaction list. -/
def sumCredits : List Transaction → Int
  | [] => 0
  | t :: rest => (match t.credit with | some v => v | none => 0) + sumCredits rest

/-- Sum of the present debit values of a transaction list. -/
def sumDebits : List Transaction → Int
  | [] => 0
  | t :: rest => (match t.debit with | some v => v | none => 0) + sumDebits rest

/-- A first page detected as a BMO chequing statement, with the fiscal year
    line (period ending 2024). -/
def c4FirstPage : LC :=
  "BMO\nSummary of your account\n   For the period ending January 31, 2024".toList

def c4Header : String := "   Date   Description   "

def c4DocStop : String := "   Please report any errors within 30 days"

/-- A transaction row: description cols 0-67, credit column (70-86) holding 10.00. -/
def c4RowPay : String :=
  "   Jan 5   PAYROLL                                                    10.00"

/-- The closing-totals row: credit total 10.00, debit total 0.00. -/
def c4RowClo : String :=
  "   Jan 5   Closing totals                                             10.00               0.00"

/-- Page 1: table header immediately followed by the document-stop line. -/
def c4Page1 : LC := (c4Header ++ "\n" ++ c4DocStop).toList

/-- Page 2: table header, one credit transaction, the closing totals. -/
def c4Page2 : LC := (c4Header ++ "\n" ++ c4RowPay ++ "\n" ++ c4RowClo).toList

def c4ExpectedTx : Transaction :=
  { tx_date := ⟨2024, 1, 5⟩, post_date := ⟨2024, 1, 5⟩, payee := "PAYROLL".toList,
    credit := some 1000, debit := none, balance := none, note := some ("PAYROLL".toList) }

/-- A first page matching the new-format BMO Mastercard detector only, with
    no metadata line at all. -/
def c5FirstPage : LC := "BMO Statement date".toList

/-- A page with the new-format Mastercard table header and one transaction
    line (amount 12.34 in the amount column, cols 78-94). -/
def c5Page : LC :=
  ("   DATE   DATE   DESCRIPTION   AMOUNT" ++ "\n"
    ++ "   Jan. 5   Jan. 6   COFFEE                                                   12.34").toList

/-- An RBC chequing first page: opening balance 0, closing balance 0 on
    January 31, 2024. -/
def c6FirstPage : LC :=
  " Your opening balance $0.00\n Your closing balance on January 31, 2024 = $0.00".toList

/-- An RBC chequing page whose only table line has a date and description
    but blank withdrawal and deposit columns: it enters the pending buffer
    and is never flushed. -/
def c6Page : LC :=
  ("   Date  Description  Withdrawals  Deposits" ++ "\n" ++ "   5 Jan MYSTERY MEMO").toList

def c6Memo : LC := "MYSTERY MEMO".toList

def c6PendingTx : Transaction :=
  { tx_date := ⟨2024, 1, 5⟩, post_date := ⟨2024, 1, 5⟩, payee := c6Memo,
    credit := some 0, debit := none, balance := none, note := some c6Memo }

/-- The parser state after scanning c6Page from the c6FirstPage metadata:
    the pending buffer still holds the unflushed transaction. -/
def c6ScanState : RBCCheqState :=
  { year := some 2024, opening_balance := some 0, closing_balance := some 0,
    last_transaction_date := some ⟨2024, 1, 5⟩, pending_tx := some c6PendingTx }

/-- The literal header of the chequing end-to-end scenario in the spec. -/
def c8Header : String :=
  "   Date   Description                                                   Withdrawals($)        Deposits($)           Balance($)"

/-- The literal row of the chequing end-to-end scenario: date at column 3,
    description at columns 11-32, 42.17 at columns 103-107, 1,000.00 at
    columns 134-141. -/
def c8Row : String :=
  "   Jan 5   GROCERY STORE PURCHASE                                                                      42.17                          1,000.00"

def c8PageText : LC := (c8Header ++ "\n" ++ c8Row).toList

/-- BMO chequing parser state with the fiscal year resolved to 2024. -/
def c8State : BMOCheqState := { BMOCheqInit with year := some 2024 }

def c8Payee : LC := "GROCERY STORE PURCHASE".toList

/-- What the engine actually produces from the literal row: the debit slice
    (columns 90-106) truncates 42.17 to 42.1, and the balance slice
    (columns 109-124) misses 1,000.00 entirely. -/
def c8ActualTx : Transaction :=
  { tx_date := ⟨2024, 1, 5⟩, post_date := ⟨2024, 1, 5⟩, payee := c8Payee,
    credit := none, debit := some 421, balance := none, note := some c8Payee }

/-- The card-style scenario of the spec: one credit of 12000, one debit of
    3000 (minor units). -/
def c3Tx1 : Transaction :=
  { tx_date := ⟨2024, 1, 5⟩, post_date := ⟨2024, 1, 5⟩, payee := [],
    credit := some 12000, debit := none, balance := none, note := none }

def c3Tx2 : Transaction :=
  { tx_date := ⟨2024, 1, 6⟩, post_date := ⟨2024, 1, 6⟩, payee := [],
    credit := none, debit := some 3000, balance := none, note := none }

def c3Txs : List Transaction := [c3Tx1, c3Tx2]

/-- A transaction line of the new-format BMO Mastercard with a CR marker in
    the amount column (cols 78-94). -/
def c9Line : LC :=
  "   Jan. 5   Jan. 6   PAYMENT RECEIVED                                         25.00 CR".toList

def c9CRTx : Transaction :=
  { tx_date := ⟨2024, 1, 5⟩, post_date := ⟨2024, 1, 6⟩, payee := "PAYMENT RECEIVED".toList,
    credit := none, debit := some 2500, balance := none,
    note := some ("PAYMENT RECEIVED".toList) }

/-- A transaction line of the old-format BMO Mastercard with a CR marker in
    the amount column (cols 118-134). -/
def c9OldLine : LC :=
  "   Jan. 5   Jan. 6   PAYMENT                                                                                          25.00 CR".toList

def c9OldTx : Transaction :=
  { tx_date := ⟨2024, 1, 5⟩, post_date := ⟨2024, 1, 6⟩, payee := "PAYMENT".toList,
    credit := none, debit := some 2500, balance := none,
    note := some ("PAYMENT ".toList) }

/-- A first page carrying both the old-format marker (Statement Date) and
    the new-format marker (Statement date). -/
def c7BothText : LC := "BMO Statement Date and Statement date".toList

/-- A first page no detector matches. -/
def c7NoneText : LC := "hello world".toList

/-- A first page with the account-summary phrase and no BMO substring. -/
def c10Text : LC := "Summary of your account".toList

/-- BMO chequing parser state with the fiscal year resolved to 2024 (used by
    the document-stop scenario). -/
def c4State : BMOCheqState := { BMOCheqInit with year := some 2024 }

/- ===== Helper lemmas ===== -/

theorem exceptBindOk (a : α) (k : α → Except Err β) :
    (Except.ok a >>= k : Except Err β) = k a := rfl

theorem postInitOK_iff (t : Transaction) :
    postInitOK t = true ↔
      (t.credit.isNone ≠ t.debit.isNone) ∧ (∀ v, t.credit = some v → 0 ≤ v)
        ∧ (∀ v, t.debit = some v → 0 ≤ v) := by
  rcases t with ⟨td, pd, py, c, d, b, n⟩
  cases c <;> cases d <;> simp [postInitOK]

/- ===== C1 ===== -/

/-- C1: every successfully constructed Transaction has exactly one of
    credit and debit present with any present value non-negative, and
    construction succeeds exactly when the fields satisfy that invariant
    (otherwise __post_init__ fails at construction time), for all field
    values. -/
theorem c1_transaction_invariant (td pd : PyDate) (py : LC) (c d b : Option Int)
    (n : Option LC) :
    (∀ t, mkTransaction td pd py c d b n = some t →
      (t.credit.isNone ≠ t.debit.isNone) ∧ (∀ v, t.credit = some v → 0 ≤ v)
        ∧ (∀ v, t.debit = some v → 0 ≤ v))
    ∧ ((mkTransaction td pd py c d b n).isSome = true ↔
      ((c.isNone ≠ d.isNone) ∧ (∀ v, c = some v → 0 ≤ v) ∧ (∀ v, d = some v → 0 ≤ v))) := by
  constructor
  · intro t h
    unfold mkTransaction at h
    by_cases hp : postInitOK ⟨td, pd, py, c, d, b, n⟩ = true
    · rw [if_pos hp] at h
      injection h with h'
      rw [← h']
      exact (postInitOK_iff _).mp hp
    · rw [if_neg hp] at h
      cases h
  · unfold mkTransaction
    by_cases hp : postInitOK ⟨td, pd, py, c, d, b, n⟩ = true
    · rw [if_pos hp]
      simpa using (postInitOK_iff _).mp hp
    · rw [if_neg hp]
      simp only [Option.isSome_none, Bool.false_eq_true, false_iff]
      intro hcon
      exact hp ((postInitOK_iff ⟨td, pd, py, c, d, b, n⟩).mpr hcon)

/-- Witness for C1: a credit-only transaction constructs, a negative credit
    fails. -/
theorem c1_transaction_invariant_witness :
    (mkTransaction ⟨2024, 1, 5⟩ ⟨2024, 1, 5⟩ [] (some 5) none none none).isSome = true
    ∧ ((mkTransaction ⟨2024, 1, 5⟩ ⟨2024, 1, 5⟩ [] (some (-1)) none none none).isSome = true
        ↔ False) := by
  constructor
  · exact (c1_transaction_invariant ⟨2024, 1, 5⟩ ⟨2024, 1, 5⟩ [] (some 5) none none none).2.mpr
      ⟨by decide, by intro v hv; injection hv with hv'; omega, by intro v hv; cases hv⟩
  · constructor
    · intro hsome
      have h :=
        (c1_transaction_invariant ⟨2024, 1, 5⟩ ⟨2024, 1, 5⟩ [] (some (-1)) none none none).2.mp
          hsome
      have h2 := h.2.1 (-1) rfl
      omega
    · exact False.elim

/- ===== C3 ===== -/

/-- C3 counterexample: with opening balance 50000, one credit 12000 and one
    debit 3000, both card-style reconciliations fail at the declared closing
    balance 41000 and pass at 59000 — the opposite of the claim. -/
theorem c3_counterexample :
    (BMOMCPostProcess ⟨some 2024, some 50000, some 41000⟩ c3Txs).isOk = false
    ∧ BMOMCPostProcess ⟨some 2024, some 50000, some 59000⟩ c3Txs = .ok c3Txs
    ∧ (RBCMCPostProcess ⟨some 2024, some 50000, some 41000⟩ c3Txs).isOk = false
    ∧ RBCMCPostProcess ⟨some 2024, some 50000, some 59000⟩ c3Txs = .ok c3Txs :=
  ⟨rfl, rfl, rfl, rfl⟩

/-- C3 amended: for the card-style variants with opening balance 50000, one
    credit 12000 and one debit 3000, reconciliation passes exactly when the
    declared closing balance is 59000 = 50000 + 12000 - 3000 (credits are
    added and debits subtracted), and raises a balance mismatch for every
    other declared value. -/
theorem c3_card_reconciliation_amended (cb : Int) :
    (BMOMCPostProcess ⟨some 2024, some 50000, some cb⟩ c3Txs = .ok c3Txs ↔ cb = 59000)
    ∧ (RBCMCPostProcess ⟨some 2024, some 50000, some cb⟩ c3Txs = .ok c3Txs ↔ cb = 59000)
    ∧ (cb ≠ 59000 →
        BMOMCPostProcess ⟨some 2024, some 50000, some cb⟩ c3Txs = .error .balanceMismatch
        ∧ RBCMCPostProcess ⟨some 2024, some 50000, some cb⟩ c3Txs = .error .balanceMismatch) := by
  have h1 : BMOMCPostProcess ⟨some 2024, some 50000, some cb⟩ c3Txs
      = if (59000 : Int) = cb then .ok c3Txs else .error .balanceMismatch := rfl
  have h2 : RBCMCPostProcess ⟨some 2024, some 50000, some cb⟩ c3Txs
      = if (59000 : Int) = cb then .ok c3Txs else .error .balanceMismatch := rfl
  refine ⟨?_, ?_, ?_⟩
  · rw [h1]
    by_cases h : (59000 : Int) = cb
    · rw [if_pos h]; simp; omega
    · rw [if_neg h]; simp; omega
  · rw [h2]
    by_cases h : (59000 : Int) = cb
    · rw [if_pos h]; simp; omega
    · rw [if_neg h]; simp; omega
  · intro hne
    rw [h1, h2]
    rw [if_neg (by omega)]
    exact ⟨rfl, rfl⟩

/-- Witness for the amended C3 at closing balance 0. -/
theorem c3_card_reconciliation_amended_witness :
    BMOMCPostProcess ⟨some 2024, some 50000, some 0⟩ c3Txs = .error .balanceMismatch
    ∧ RBCMCPostProcess ⟨some 2024, some 50000, some 0⟩ c3Txs = .error .balanceMismatch :=
  (c3_card_reconciliation_amended 0).2.2 (by decide)

/- ===== C4 ===== -/

/-- C4: the document-stop line on page 1 only ends the scan of that page; the
    page loop still scans page 2, whose transaction appears in the returned
    list (the claim says no page after the stop is ever scanned). -/
theorem c4_doc_stop_only_stops_page :
    processPage BMOCheqScanner c4State c4Page1 = .ok (c4State, [])
    ∧ processPDF c4FirstPage [c4Page1, c4Page2] = .ok [c4ExpectedTx] := ⟨rfl, rfl⟩

/- ===== C6 ===== -/

/-- C6 counterexample: an RBC chequing page scan ends successfully with the
    pending buffer still holding an unflushed transaction — no flush, no
    failure. -/
theorem c6_counterexample :
    processPage RBCCheqScanner ⟨some 2024, some 0, some 0, none, none⟩ c6Page
      = .ok (c6ScanState, []) := rfl

/-- C6 amended: the scan never checks the pending buffer at page end — it is
    carried in parser state across pages, a buffer still pending when the
    document ends is silently dropped, and post-processing ignores the
    buffer entirely, so the pipeline can return successfully without it. -/
theorem c6_pending_buffer_amended :
    RBCCheqProcessDoc c6FirstPage [c6Page] = .ok []
    ∧ (RBCCheqProcessFirstPage c6FirstPage).bind
        (fun s0 => scanPages RBCCheqScanner s0 [c6Page]) = .ok (c6ScanState, [])
    ∧ (∀ (s : RBCCheqState) (txs : List Transaction),
        RBCCheqPostProcess s txs = RBCCheqPostProcess { s with pending_tx := none } txs) := by
  refine ⟨rfl, rfl, ?_⟩
  intro s txs
  cases s
  rfl

/- ===== C7 ===== -/

/-- C7: the detector tries the five variants in the fixed priority order and
    returns the first match; a page carrying both BMO Mastercard markers
    resolves to the old format; with no match the pipeline fails with an
    unrecognized-document error carrying the raw first-page text. -/
theorem c7_detector_priority :
    (∀ fp : LC, detectProcessor fp = List.find? (fun v => variantMatches v fp) variantOrder)
    ∧ (∀ fp : LC, containsSub sBMO.toList fp = true →
        containsSub sStatementDateOld.toList fp = true →
        detectProcessor fp = some .oldBMOMC)
    ∧ (∀ (fp : LC) (pages : List LC), detectProcessor fp = none →
        processPDF fp pages = .error (.unrecognizedDocument fp)) := by
  refine ⟨?_, ?_, ?_⟩
  · intro fp
    cases h1 : oldBMOMCMatches fp <;> cases h2 : bmoMCMatches fp
      <;> cases h3 : bmoCheqMatches fp <;> cases h4 : rbcCheqMatches fp
      <;> cases h5 : rbcMCMatches fp
      <;> simp [detectProcessor, variantOrder, variantMatches, List.find?, h1, h2, h3, h4, h5]
  · intro fp h1 h2
    simp only [String.toList] at h1 h2
    have hm : oldBMOMCMatches fp = true := by simp [oldBMOMCMatches, h1, h2]
    simp [detectProcessor, hm]
  · intro fp pages h
    simp [processPDF, h]

/-- Witness for C7: a page with both markers resolves to the old format; an
    unmatched page raises the unrecognized error with its text. -/
theorem c7_detector_priority_witness :
    detectProcessor c7BothText = some .oldBMOMC
    ∧ processPDF c7NoneText [] = .error (.unrecognizedDocument c7NoneText) :=
  ⟨c7_detector_priority.2.1 c7BothText rfl rfl,
   c7_detector_priority.2.2 c7NoneText [] rfl⟩

/- ===== C8 ===== -/

/-- C8 counterexample: on the literal spec row (42.17 at columns 103-107,
    1,000.00 at columns 134-141) the engine produces debit 421 and no
    balance, not debit 4217 and balance 100000. -/
theorem c8_counterexample :
    Except.map (fun r => (r.2.map Transaction.debit, r.2.map Transaction.balance))
        (processPage BMOCheqScanner c8State c8PageText)
      = .ok ([some 421], [(none : Option Int)]) := rfl

/-- C8 amended: with fiscal year 2024, the literal header and row produce
    exactly one transaction with tx_date 2024-01-05, payee GROCERY STORE
    PURCHASE, credit absent, debit 421 (the debit column slice stops at
    column 107 and cuts the last digit of 42.17), and balance absent (the
    balance slice, columns 109-124, lies left of 1,000.00). -/
theorem c8_literal_row_amended :
    processPage BMOCheqScanner c8State c8PageText = .ok (c8State, [c8ActualTx]) := rfl

/- ===== C10 ===== -/

/-- C10: a first page containing the account-summary phrase but not the BMO
    substring is detected as the BMO chequing variant — BMO is not required
    in the detection test of that variant. -/
theorem c10_summary_without_bmo (fp : LC)
    (h1 : containsSub sSummary.toList fp = true)
    (h2 : containsSub sBMO.toList fp = false) :
    detectProcessor fp = some .bmoCheq := by
  simp only [String.toList] at h1 h2
  have hOld : oldBMOMCMatches fp = false := by simp [oldBMOMCMatches, h2]
  have hNew : bmoMCMatches fp = false := by simp [bmoMCMatches, h2]
  have hCheq : bmoCheqMatches fp = true := by simp [bmoCheqMatches, h1, h2]
  simp [detectProcessor, hOld, hNew, hCheq]

/-- Witness for C10. -/
theorem c10_summary_without_bmo_witness : detectProcessor c10Text = some .bmoCheq :=
  c10_summary_without_bmo c10Text rfl rfl

theorem exceptBindErr (e : Err) (k : α → Except Err β) :
    (Except.error e >>= k : Except Err β) = .error e := rfl

theorem sumLoopBMOCheq_eq (txs : List Transaction)
    (hwf : ∀ t ∈ txs, t.credit.isNone ≠ t.debit.isNone) (tc td : Int) :
    sumLoopBMOCheq txs tc td = .ok (tc + sumCredits txs, td + sumDebits txs) := by
  induction txs generalizing tc td with
  | nil => simp [sumLoopBMOCheq, sumCredits, sumDebits]
  | cons t rest ih =>
    have ht := hwf t (List.mem_cons_self _ _)
    have hrest : ∀ x ∈ rest, x.credit.isNone ≠ x.debit.isNone :=
      fun x hx => hwf x (List.mem_cons_of_mem _ hx)
    cases hc : t.credit with
    | some c =>
      cases hd : t.debit with
      | some d => rw [hc, hd] at ht; simp at ht
      | none =>
        simp only [sumLoopBMOCheq, hc, hd, sumCredits, sumDebits, ih hrest]
        simp [Int.add_assoc]
    | none =>
      cases hd : t.debit with
      | none => rw [hc, hd] at ht; simp at ht
      | some d =>
        simp only [sumLoopBMOCheq, hc, hd, sumCredits, sumDebits, ih hrest]
        simp [Int.add_assoc]

/-- C2: the BMO chequing post-processing returns the transaction list
    unchanged exactly when the summed credits equal the declared closing
    credit total and the summed debits equal the declared closing debit
    total, and fails with no result whenever either sum disagrees. -/
theorem c2_bmo_chequing_reconciliation (s : BMOCheqState) (cc cd : Int)
    (txs : List Transaction)
    (hcc : s.closing_credit = some (some cc)) (hcd : s.closing_debit = some (some cd))
    (hwf : ∀ t ∈ txs, t.credit.isNone ≠ t.debit.isNone) :
    (BMOCheqPostProcess s txs = .ok txs ↔ (sumCredits txs = cc ∧ sumDebits txs = cd))
    ∧ ((sumCredits txs ≠ cc ∨ sumDebits txs ≠ cd) →
        (BMOCheqPostProcess s txs).isOk = false) := by
  have hred : BMOCheqPostProcess s txs =
      (if (some cc : Option Int) = some (0 + sumCredits txs) then
        (if (some cd : Option Int) = some (0 + sumDebits txs) then .ok txs
         else .error .debitMismatch)
       else .error .creditMismatch) := by
    simp only [BMOCheqPostProcess, sumLoopBMOCheq_eq txs hwf, exceptBindOk, hcc, hcd]
  have hc1 : ((some cc : Option Int) = some (0 + sumCredits txs)) ↔ sumCredits txs = cc := by
    simp only [Option.some.injEq]
    constructor <;> (intro h; omega)
  have hc2 : ((some cd : Option Int) = some (0 + sumDebits txs)) ↔ sumDebits txs = cd := by
    simp only [Option.some.injEq]
    constructor <;> (intro h; omega)
  rw [hred]
  constructor
  · constructor
    · intro h
      split_ifs at h with h1 h2
      exact ⟨hc1.mp h1, hc2.mp h2⟩
    · rintro ⟨e1, e2⟩
      rw [if_pos (hc1.mpr e1), if_pos (hc2.mpr e2)]
  · intro hne
    split_ifs with h1 h2
    · rcases hne with hne | hne
      · exact absurd (hc1.mp h1) hne
      · exact absurd (hc2.mp h2) hne
    · rfl
    · rfl

/-- Witness for C2: totals 5 and 7 reconcile a credit-5 and a debit-7
    transaction. -/
theorem c2_bmo_chequing_reconciliation_witness :
    BMOCheqPostProcess ⟨some 2024, some (some 7), some (some 5)⟩
        [⟨⟨2024, 1, 5⟩, ⟨2024, 1, 5⟩, [], some 5, none, none, none⟩,
         ⟨⟨2024, 1, 5⟩, ⟨2024, 1, 5⟩, [], none, some 7, none, none⟩]
      = .ok [⟨⟨2024, 1, 5⟩, ⟨2024, 1, 5⟩, [], some 5, none, none, none⟩,
             ⟨⟨2024, 1, 5⟩, ⟨2024, 1, 5⟩, [], none, some 7, none, none⟩] :=
  (c2_bmo_chequing_reconciliation ⟨some 2024, some (some 7), some (some 5)⟩ 5 7
      _ rfl rfl (by decide)).1.mpr (by decide)

/- ===== C5 ===== -/

/-- C5 counterexample: the new-format BMO Mastercard variant processes a
    first page with no metadata at all without failing, and the pipeline
    error then depends on the later pages (post-processing assert with no
    pages, year assert at the first transaction line otherwise) — it does
    not abort during first-page processing. -/
theorem c5_counterexample :
    BMOMCProcessFirstPage c5FirstPage = .ok ⟨none, none, none⟩
    ∧ processPDF c5FirstPage [] = .error .openingBalanceNotFound
    ∧ processPDF c5FirstPage [c5Page] = .error .yearNotSet := ⟨rfl, rfl, rfl⟩

/-- C5 amended: the old BMO Mastercard, RBC chequing and RBC Mastercard
    variants (and BMO chequing, whose only requirement is the fiscal year)
    fail during first-page processing exactly when a required metadata item
    is missing after scanning page 1, and a first-page failure aborts the
    document before any page scan (the result is the same error for every
    page list).  The new-format BMO Mastercard variant returns whatever its
    first-page scan found without checking: a missing opening balance is
    first detected in post-processing, and a missing year makes every
    transaction line fail instead of producing a transaction. -/
theorem c5_first_page_metadata_amended :
    (∀ (text : LC) (s : BMOMCState),
      oldBMOMCFirstPageLoop BMOMCInit (splitNL text) = .ok s →
        (if truthyIntOpt s.year && s.opening_balance.isSome && s.closing_balance.isSome
         then OldBMOMCProcessFirstPage text = .ok s
         else (OldBMOMCProcessFirstPage text).isOk = false))
    ∧ (∀ (text : LC) (s : RBCCheqState),
      rbcCheqFirstPageLoop RBCCheqInit (splitNL text) = .ok s →
        (if truthyIntOpt s.year && s.opening_balance.isSome && s.closing_balance.isSome
         then RBCCheqProcessFirstPage text = .ok s
         else (RBCCheqProcessFirstPage text).isOk = false))
    ∧ (∀ (text : LC) (s : RBCMCState),
      rbcMCFirstPageLoop RBCMCInit (splitNL text) = .ok s →
        (if truthyIntOpt s.year && s.opening_balance.isSome && s.closing_balance.isSome
         then RBCMCProcessFirstPage text = .ok s
         else (RBCMCProcessFirstPage text).isOk = false))
    ∧ (∀ (text : LC) (y : Option Int),
      bmoCheqFindYear (splitNL text) = .ok y →
        (BMOCheqProcessFirstPage text).isOk = y.isSome)
    ∧ (∀ (text : LC) (s : BMOMCState),
      bmoMCFirstPageLoop BMOMCInit (splitNL text) = .ok s →
        BMOMCProcessFirstPage text = .ok s)
    ∧ (∀ (s : BMOMCState) (txs : List Transaction), s.opening_balance = none →
        (BMOMCPostProcess s txs).isOk = false)
    ∧ (∀ (s : BMOMCState) (l : LC) (p n : Option LC) (s2 : BMOMCState) (t : Transaction),
        s.year = none → BMOMCPrepare s l p n ≠ .ok (s2, some t))
    ∧ (∀ (fp : LC) (pages : List LC) (e : Err),
        OldBMOMCProcessFirstPage fp = .error e → OldBMOMCProcessDoc fp pages = .error e)
    ∧ (∀ (fp : LC) (pages : List LC) (e : Err),
        RBCCheqProcessFirstPage fp = .error e → RBCCheqProcessDoc fp pages = .error e)
    ∧ (∀ (fp : LC) (pages : List LC) (e : Err),
        RBCMCProcessFirstPage fp = .error e → RBCMCProcessDoc fp pages = .error e)
    ∧ (∀ (fp : LC) (pages : List LC) (e : Err),
        BMOCheqProcessFirstPage fp = .error e → BMOCheqProcessDoc fp pages = .error e) := by
  refine ⟨?_, ?_, ?_, ?_, ?_, ?_, ?_, ?_, ?_, ?_, ?_⟩
  · intro text s h
    rcases s with ⟨y, ob, cb⟩
    cases ob <;> cases cb <;> cases hy : truthyIntOpt y
      <;> simp [OldBMOMCProcessFirstPage, h, exceptBindOk, hy, Except.isOk, Except.toBool]
  · intro text s h
    rcases s with ⟨y, ob, cb, lt, pt⟩
    cases ob <;> cases cb <;> cases hy : truthyIntOpt y
      <;> simp [RBCCheqProcessFirstPage, h, exceptBindOk, hy, Except.isOk, Except.toBool]
  · intro text s h
    rcases s with ⟨y, ob, cb⟩
    cases ob <;> cases cb <;> cases hy : truthyIntOpt y
      <;> simp [RBCMCProcessFirstPage, h, exceptBindOk, hy, Except.isOk, Except.toBool]
  · intro text y h
    cases y <;> simp [BMOCheqProcessFirstPage, h, exceptBindOk, Except.isOk, Except.toBool]
  · intro text s h
    exact h
  · intro s txs h
    simp [BMOMCPostProcess, h, Except.isOk, Except.toBool]
  · intro s l p n s2 t hy heq
    simp only [BMOMCPrepare] at heq
    split at heq
    · simp at heq
    · simp only [bind, Except.bind, pure, Except.pure] at heq
      split at heq
      · split at heq
        · split at heq
          · rw [hy] at heq
            cases heq
          · cases heq
        · cases heq
      · split at heq
        · split at heq
          · rw [hy] at heq
            cases heq
          · cases heq
        · cases heq
  · intro fp pages e h
    simp [OldBMOMCProcessDoc, h, exceptBindErr]
  · intro fp pages e h
    simp [RBCCheqProcessDoc, h, exceptBindErr]
  · intro fp pages e h
    simp [RBCMCProcessDoc, h, exceptBindErr]
  · intro fp pages e h
    simp [BMOCheqProcessDoc, h, exceptBindErr]

/-- Witness for the amended C5 at concrete inputs: an empty first page fails
    the old variant at first-page processing (year assert) independently of
    the pages; the new variant detects a missing opening balance only in
    post-processing; a transaction line never parses with the year unset. -/
theorem c5_first_page_metadata_amended_witness :
    (OldBMOMCProcessFirstPage []).isOk = false
    ∧ (BMOMCPostProcess ⟨none, none, none⟩ []).isOk = false
    ∧ BMOMCPrepare ⟨none, none, none⟩ [] none none
        ≠ .ok (⟨none, none, none⟩, some ⟨⟨2024, 1, 5⟩, ⟨2024, 1, 5⟩, [], some 0, none, none, none⟩)
    ∧ OldBMOMCProcessDoc [] [] = .error .yearNotSet := by
  refine ⟨?_, ?_, ?_, ?_⟩
  · exact c5_first_page_metadata_amended.1 [] BMOMCInit rfl
  · exact c5_first_page_metadata_amended.2.2.2.2.2.1 ⟨none, none, none⟩ [] rfl
  · exact c5_first_page_metadata_amended.2.2.2.2.2.2.1 ⟨none, none, none⟩ [] none none _ _ rfl
  · exact c5_first_page_metadata_amended.2.2.2.2.2.2.2.1 [] [] .yearNotSet rfl

theorem mkTransaction_fields (td pd : PyDate) (py : LC) (c d b : Option Int)
    (n : Option LC) (t : Transaction) (h : mkTransaction td pd py c d b n = some t) :
    t.credit = c ∧ t.debit = d := by
  simp only [mkTransaction] at h
  split at h
  · injection h with h'
    rw [← h']
    exact ⟨rfl, rfl⟩
  · cases h

/- ===== C9 ===== -/

/-- C9: in both BMO Mastercard variants, a parsed transaction line whose
    sanitized amount contains the CR marker yields a transaction with the
    debit field set (to the CR amount) and credit absent, and otherwise the
    credit field set and debit absent — credit carries charges, debit
    carries payments and refunds. -/
theorem c9_cr_amount_routing :
    (∀ (s : BMOMCState) (line : LC) (prev next : Option LC) (s2 : BMOMCState)
        (t : Transaction),
      BMOMCPrepare s line prev next = .ok (s2, some t) →
        (if containsSub sCRtxt.toList (sanitize_amount (pySlice 78 95 line)) = true
         then t.credit = none
            ∧ t.debit = pyInt (removeCR (sanitize_amount (pySlice 78 95 line)))
         else t.debit = none
            ∧ t.credit = pyInt (sanitize_amount (pySlice 78 95 line))))
    ∧ (∀ (s : BMOMCState) (line : LC) (prev next : Option LC) (s2 : BMOMCState)
        (t : Transaction),
      OldBMOMCPrepare s line prev next = .ok (s2, some t) →
        (if containsSub sCRtxt.toList (sanitize_amount (pySlice 118 135 line)) = true
         then t.credit = none
            ∧ t.debit = pyInt (removeCR (sanitize_amount (pySlice 118 135 line)))
         else t.debit = none
            ∧ t.credit = pyInt (sanitize_amount (pySlice 118 135 line)))) := by
  constructor
  · intro s line prev next s2 t heq
    simp only [BMOMCPrepare] at heq
    split at heq
    · simp at heq
    · simp only [bind, Except.bind, pure, Except.pure] at heq
      by_cases hcr : containsSub sCRtxt.toList (sanitize_amount (pySlice 78 95 line)) = true
      · rw [if_pos hcr] at heq ⊢
        cases hpi : pyInt (removeCR (sanitize_amount (pySlice 78 95 line))) with
        | none =>
          rw [hpi] at heq
          cases heq
        | some v =>
          rw [hpi] at heq
          repeat' split at heq
          all_goals try cases heq
          all_goals
            (rename_i hmk
             obtain ⟨h1, h2⟩ := mkTransaction_fields _ _ _ _ _ _ _ _ hmk
             simp_all)
      · rw [if_neg hcr] at heq ⊢
        cases hpi : pyInt (sanitize_amount (pySlice 78 95 line)) with
        | none =>
          rw [hpi] at heq
          cases heq
        | some v =>
          rw [hpi] at heq
          repeat' split at heq
          all_goals try cases heq
          all_goals
            (rename_i hmk
             obtain ⟨h1, h2⟩ := mkTransaction_fields _ _ _ _ _ _ _ _ hmk
             simp_all)
  · intro s line prev next s2 t heq
    simp only [OldBMOMCPrepare] at heq
    split at heq
    · simp at heq
    · simp only [bind, Except.bind, pure, Except.pure] at heq
      by_cases hcr : containsSub sCRtxt.toList (sanitize_amount (pySlice 118 135 line)) = true
      · rw [if_pos hcr] at heq ⊢
        cases hpi : pyInt (removeCR (sanitize_amount (pySlice 118 135 line))) with
        | none =>
          rw [hpi] at heq
          cases heq
        | some v =>
          rw [hpi] at heq
          repeat' split at heq
          all_goals try cases heq
          all_goals
            (rename_i hmk
             obtain ⟨h1, h2⟩ := mkTransaction_fields _ _ _ _ _ _ _ _ hmk
             simp_all)
      · rw [if_neg hcr] at heq ⊢
        cases hpi : pyInt (sanitize_amount (pySlice 118 135 line)) with
        | none =>
          rw [hpi] at heq
          cases heq
        | some v =>
          rw [hpi] at heq
          repeat' split at heq
          all_goals try cases heq
          all_goals
            (rename_i hmk
             obtain ⟨h1, h2⟩ := mkTransaction_fields _ _ _ _ _ _ _ _ hmk
             simp_all)

/-- Witness for C9: concrete CR lines of both variants route the amount to
    the debit field. -/
theorem c9_cr_amount_routing_witness :
    (c9CRTx.credit = none
      ∧ c9CRTx.debit = pyInt (removeCR (sanitize_amount (pySlice 78 95 c9Line))))
    ∧ (c9OldTx.credit = none
      ∧ c9OldTx.debit = pyInt (removeCR (sanitize_amount (pySlice 118 135 c9OldLine)))) := by
  constructor
  · exact c9_cr_amount_routing.1 ⟨some 2024, none, none⟩ c9Line none none
      ⟨some 2024, none, none⟩ c9CRTx rfl
  · exact c9_cr_amount_routing.2 ⟨some 2024, none, none⟩ c9OldLine none none
      ⟨some 2024, none, none⟩ c9OldTx rfl
